import Mathlib

/-!
Verification of the nvs-antt sales-order tracking system.

The definitions below are a shallow embedding of the repository's code:
the client sales page (src/unnamed/part_000), the execution-type update
mutation (src/temp_update_mutation_new.txt) and the WebSocket server
(src/server/websocket.ts).  Server route handlers are not part of the
repository snapshot; where a claim depends on them they are modelled
from the specification and marked as such in their doc comments.
-/

namespace NvsAntt

/-! Data model: execution status, financial status and the order (sale) record,
from the `Sale` type of the sales page.  Only the fields the verified
operations read or write are carried. -/

inductive ExecStatus
  | pending
  | in_progress
  | returned
  | completed
  | canceled
  | corrected
  deriving DecidableEq, Repr, BEq

inductive FinStatus
  | unpaid
  | paid
  deriving DecidableEq, Repr, BEq

structure Sale where
  id : Nat
  sellerId : Nat
  serviceTypeId : Option Nat
  -- the sale's associated partner service providers (the saleServiceProviders
  -- association, held as a list of provider ids)
  serviceProviderIds : List Nat
  status : ExecStatus
  financialStatus : FinStatus
  deriving DecidableEq, Repr, BEq

/-! C1 embedding: `updateExecutionTypeMutation` from
src/temp_update_mutation_new.txt.  The mutation first validates the sale id
and the selected execution (service) type, then POSTs the service-type
update, and only afterwards validates and posts the partner providers.
The two endpoints it calls are server code absent from src and are
modelled from the spec.  The result pairs the thrown error (if any) with
the server-side sale state after the mutation ran. -/

structure ExecTypeForm where
  saleId : Option Nat
  selectedServiceTypeId : Option Nat
  hasPrestadorParceiro : Bool
  selectedServiceProviderIds : List Nat
  -- currently associated providers of the sale, as loaded by the dialog
  saleServiceProviders : List Nat
  deriving DecidableEq, Repr

/-- Modelled from the spec: the `POST /orders/id/start-execution`-family
endpoint `update-execution-type` (server code not in src) stores the
requested service type on the order. -/
def postUpdateExecutionType (serviceTypeId : Nat) (sale : Sale) : Sale :=
  { sale with serviceTypeId := some serviceTypeId }

/-- Modelled from the spec: `updateServiceProvidersMutation` (referenced by
the mutation but not in src) stores the currently selected provider ids on
the order. -/
def updateServiceProviders (providerIds : List Nat) (sale : Sale) : Sale :=
  { sale with serviceProviderIds := providerIds }

/-- The mutation function of `updateExecutionTypeMutation`, translated
statement by statement.  `serverOk` stands for `response.ok` of the
execution-type POST.  Returns the thrown error message (or `none` on
success) together with the sale as the server left it. -/
def updateExecutionTypeMutation (form : ExecTypeForm) (serverOk : Bool)
    (sale : Sale) : Option String × Sale :=
  match form.saleId with
  | none => (some "ID da venda não fornecido", sale)
  | some _ =>
    match form.selectedServiceTypeId with
    | none => (some "É necessário selecionar um tipo de execução", sale)
    | some tid =>
      if !serverOk then
        (some "Erro ao atualizar tipo de execução", sale)
      else
        let sale1 := postUpdateExecutionType tid sale
        if form.hasPrestadorParceiro then
          if form.selectedServiceProviderIds = [] then
            (some "É necessário selecionar pelo menos um prestador parceiro", sale1)
          else
            (none, updateServiceProviders form.selectedServiceProviderIds sale1)
        else
          if form.saleServiceProviders ≠ [] then
            (none, updateServiceProviders [] sale1)
          else
            (none, sale1)

/-- A concrete pending sale used as the starting state of counterexamples
and witnesses. -/
def pendingSale : Sale :=
  { id := 1, sellerId := 1, serviceTypeId := none, serviceProviderIds := []
    status := ExecStatus.pending, financialStatus := FinStatus.unpaid }

/-! C2 embedding: the mark-paid transition and its client-side gate.
The route handler of `POST /api/sales/id/mark-paid` is server code absent
from src, so it is modelled from the spec; the button gate is translated
from the mobile render of SalesPage. -/

inductive TransitionError
  | TransitionNotAllowed
  | PreconditionFailed
  | ForbiddenActor
  | Conflict
  | NotFound
  deriving DecidableEq, Repr

/-- Modelled from the spec: `POST /orders/id/mark-paid` (server code not in
src) is valid only from execution status `completed` with financial status
`unpaid`; any other state is rejected as `TransitionNotAllowed`. -/
def markPaid (sale : Sale) : Except TransitionError Sale :=
  if sale.status = ExecStatus.completed ∧ sale.financialStatus = FinStatus.unpaid then
    Except.ok { sale with financialStatus := FinStatus.paid }
  else
    Except.error TransitionError.TransitionNotAllowed

/-- The SalesPage gate for the "Confirmar Pagamento" button: shown only to
admin or financeiro, and only when the sale is completed and not yet
paid. -/
def showMarkPaidButton (role : String) (sale : Sale) : Bool :=
  (role == "admin" || role == "financeiro")
    && sale.status == ExecStatus.completed
    && sale.financialStatus != FinStatus.paid

/-- A concrete completed, unpaid sale. -/
def completedUnpaidSale : Sale :=
  { id := 2, sellerId := 1, serviceTypeId := some 5, serviceProviderIds := []
    status := ExecStatus.completed, financialStatus := FinStatus.unpaid }

/-- The same sale after mark-paid succeeded. -/
def completedPaidSale : Sale :=
  { completedUnpaidSale with financialStatus := FinStatus.paid }

/-! C3 embedding: the sellerId request parameter computed by the SalesPage
paginated query function.  The source appends the explicitly selected
seller filter when one is set (`selectedSellerId && selectedSellerId !==
'all'`), and otherwise, for a vendedor, appends the user's own id. -/

/-- The `sellerId` query parameter the SalesPage queryFn puts on the
`GET /api/sales` request, exactly as the two `if`/`else if` branches of the
source compute it. -/
def salesSellerIdParam (role : String) (userId : Nat)
    (selectedSellerId : String) : Option String :=
  if selectedSellerId ≠ "" ∧ selectedSellerId ≠ "all" then
    some selectedSellerId
  else if role = "vendedor" then
    some (toString userId)
  else
    none

/-! WebSocket embedding (src/server/websocket.ts): event types, events,
serialization (JSON.stringify is an external library call, modelled by an
explicit field-by-field encoder), connections, broadcast, the periodic
ping interval, the close handler and the message handler. -/

inductive WSEventType
  | sales_update
  | user_update
  | ping
  | pong
  deriving DecidableEq, Repr, BEq

/-- The payloads the server actually sends: a human-readable message or a
timestamp object.  Carrying no order contents is visible in the type:
there is no constructor holding order data. -/
inductive WSPayload
  | message (text : String)
  | timestamp (t : Nat)
  deriving DecidableEq, Repr, BEq

structure WSEvent where
  type : WSEventType
  payload : Option WSPayload := none
  timestamp : Option Nat := none
  deriving DecidableEq, Repr, BEq

def wsEventTypeName : WSEventType → String
  | WSEventType.sales_update => "sales_update"
  | WSEventType.user_update => "user_update"
  | WSEventType.ping => "ping"
  | WSEventType.pong => "pong"

def serializeWSPayload : WSPayload → String
  | WSPayload.message s => "message:" ++ s
  | WSPayload.timestamp t => "timestamp:" ++ toString t

/-- Stand-in for `JSON.stringify` on a `WSEvent`: a deterministic
field-by-field encoding. -/
def serializeWSEvent (e : WSEvent) : String :=
  "type=" ++ wsEventTypeName e.type
    ++ ";payload=" ++ (match e.payload with
        | some p => serializeWSPayload p
        | none => "")
    ++ ";timestamp=" ++ (match e.timestamp with
        | some t => toString t
        | none => "")

/-- WebSocket ready states, from the `ws` library constants the server
compares against. -/
inductive ReadyState
  | CONNECTING
  | OPEN
  | CLOSING
  | CLOSED
  deriving DecidableEq, Repr, BEq

/-- One WebSocket connection as the server observes it.  `sent` records
the messages delivered over the transport; `sendFails` says whether
`ws.send` throws for this transport; `respondsToPing` says whether the
peer would answer a liveness probe (the server code never consults it). -/
structure WSConn where
  id : Nat := 0
  readyState : ReadyState
  sendFails : Bool := false
  respondsToPing : Bool := true
  sent : List String := []
  deriving DecidableEq, Repr, BEq

/-- `broadcastEvent`: serialize the event once and send the identical
message to every connection whose transport is open. -/
def broadcastEvent (event : WSEvent) (connections : List WSConn) : List WSConn :=
  let message := serializeWSEvent event
  connections.map fun client =>
    if client.readyState = ReadyState.OPEN then
      { client with sent := client.sent ++ [message] }
    else
      client

/-- The event `notifySalesUpdate` broadcasts: type `sales_update` with a
payload holding only the current timestamp. -/
def salesUpdateEvent (now : Nat) : WSEvent :=
  { type := WSEventType.sales_update, payload := some (WSPayload.timestamp now) }

/-- `notifySalesUpdate`: broadcast the sales-update event to all
clients. -/
def notifySalesUpdate (now : Nat) (connections : List WSConn) : List WSConn :=
  broadcastEvent (salesUpdateEvent now) connections

/-- Modelled from the spec: the transition route handlers (server code not
in src) call `notifySalesUpdate` after every successful transition and
leave the connection set alone on failure. -/
def applyTransitionAndNotify (doTransition : Sale → Except TransitionError Sale)
    (sale : Sale) (now : Nat) (connections : List WSConn) :
    Except TransitionError Sale × List WSConn :=
  match doTransition sale with
  | Except.ok s => (Except.ok s, notifySalesUpdate now connections)
  | Except.error e => (Except.error e, connections)

/-- The ping interval period of the server: `15000` (comment in source:
ping a cada 15 segundos). -/
def pingIntervalMs : Nat := 15000

/-- The periodic ping event the interval callback sends. -/
def pingEvent (now : Nat) : WSEvent :=
  { type := WSEventType.ping
    payload := some (WSPayload.message "Ping periódico do servidor")
    timestamp := some now }

/-- One tick of the `setInterval` callback on one connection: if the
transport is open, try to send the ping; a throwing send forces a
`terminate` (transport closed).  Probe responses are never examined. -/
def intervalTick (now : Nat) (ws : WSConn) : WSConn :=
  if ws.readyState = ReadyState.OPEN then
    if ws.sendFails then
      { ws with readyState := ReadyState.CLOSED }
    else
      { ws with sent := ws.sent ++ [serializeWSEvent (pingEvent now)] }
  else
    ws

/-- One full probe cycle over the registry: every connection receives an
interval tick, and the `close` handler (`connections.splice`) removes each
connection whose transport is no longer open. -/
def probeCycle (now : Nat) (connections : List WSConn) : List WSConn :=
  (connections.map (intervalTick now)).filter
    fun c => c.readyState == ReadyState.OPEN

/-- The pong reply of the message handler. -/
def pongEvent (now : Nat) : WSEvent :=
  { type := WSEventType.pong
    payload := some (WSPayload.message "Pong resposta ao ping")
    timestamp := some now }

/-- The `ws.on message` handler.  `JSON.parse` is an external call; its
outcome is the `parsed` argument, `none` standing for a parse error caught
by the `try`/`catch` (which only logs).  The handler returns the
connection (with any reply appended to `sent`) and the registry, which it
never touches. -/
def onMessageServer (now : Nat) (parsed : Option WSEvent) (ws : WSConn)
    (connections : List WSConn) : WSConn × List WSConn :=
  match parsed with
  | none => (ws, connections)
  | some event =>
    if event.type = WSEventType.ping then
      ({ ws with sent := ws.sent ++ [serializeWSEvent (pongEvent now)] }, connections)
    else
      (ws, connections)

/-! C4 embedding: the TanStack query cache as SalesPage uses it.  A cache
entry is keyed by a composite list whose head is the resource path (the
sales page keys start with "/api/sales" followed by scope, page, limit and
the filter values).  `invalidateQueries` marks stale every entry whose key
the given key prefixes, which is TanStack's default prefix matching. -/

structure CacheEntry where
  key : List String
  value : String
  stale : Bool
  deriving DecidableEq, Repr, BEq

/-- `queryClient.invalidateQueries` with a query-key filter: every cache
entry whose key extends the filter key is marked stale. -/
def invalidateQueries (queryKey : List String) (cache : List CacheEntry) :
    List CacheEntry :=
  cache.map fun e =>
    if queryKey.isPrefixOf e.key then { e with stale := true } else e

/-- Reading a cache entry: a fresh entry is served from cache; a stale
entry triggers a refetch and yields the fetched server value. -/
def cacheRead (e : CacheEntry) (fetched : String) : String :=
  if e.stale then fetched else e.value

/-- `deleteMutation.onSuccess`: invalidate all sales queries. -/
def deleteMutationOnSuccess (cache : List CacheEntry) : List CacheEntry :=
  invalidateQueries ["/api/sales"] cache

/-- `resendSaleMutation.onSuccess`: invalidate all sales queries. -/
def resendSaleMutationOnSuccess (cache : List CacheEntry) : List CacheEntry :=
  invalidateQueries ["/api/sales"] cache

/-- `markAsPaidMutation.onSuccess`: invalidate all sales queries. -/
def markAsPaidMutationOnSuccess (cache : List CacheEntry) : List CacheEntry :=
  invalidateQueries ["/api/sales"] cache

/-- `clearAllSalesMutation.onSuccess`: invalidate all sales queries. -/
def clearAllSalesMutationOnSuccess (cache : List CacheEntry) : List CacheEntry :=
  invalidateQueries ["/api/sales"] cache

/-- The `useEffect` listening on the WebSocket `lastEvent`: on a
`sales_update` event, invalidate all sales queries; otherwise do
nothing. -/
def salesUpdateEffect (lastEvent : Option WSEvent) (cache : List CacheEntry) :
    List CacheEntry :=
  match lastEvent with
  | some ev =>
    if ev.type = WSEventType.sales_update then
      invalidateQueries ["/api/sales"] cache
    else
      cache
  | none => cache

/-! C7 embedding: the persistent localStorage cache of SalesPage.
`getFromLocalCache` serves an entry unless `Date.now() - timestamp >
localStorageCacheTime`, in which case it removes the entry and reports a
miss; `saveToLocalCache` stores the data with the current timestamp.  The
sales page query never calls either (its fetch carries no-cache headers)
and uses `staleTime: 30000` for the volatile tier. -/

/-- One hour, the localStorage freshness window of the source. -/
def localStorageCacheTime : Nat := 60 * 60 * 1000

structure LocalCacheEntry where
  key : String
  data : String
  timestamp : Nat
  deriving DecidableEq, Repr, BEq

/-- The browser localStorage, as a keyed list of entries. -/
abbrev LocalStore := List LocalCacheEntry

def lookupCache (store : LocalStore) (key : String) : Option LocalCacheEntry :=
  store.find? fun e => e.key == key

/-- `localStorage.removeItem`. -/
def removeItem (store : LocalStore) (key : String) : LocalStore :=
  store.filter fun e => !(e.key == key)

/-- `getFromLocalCache`: return the cached data when the entry exists and
is not expired; remove an expired entry and report a miss. -/
def getFromLocalCache (now : Nat) (store : LocalStore) (key : String) :
    Option String × LocalStore :=
  match lookupCache store key with
  | some entry =>
    if now - entry.timestamp > localStorageCacheTime then
      (none, removeItem store key)
    else
      (some entry.data, store)
  | none => (none, store)

/-- `saveToLocalCache`: `localStorage.setItem` of the data with the current
timestamp (overwriting the key). -/
def saveToLocalCache (now : Nat) (store : LocalStore) (key : String)
    (data : String) : LocalStore :=
  removeItem store key ++ [{ key := key, data := data, timestamp := now }]

/-- The shared queryFn shape of the reference-data queries (customers,
users, payment methods, service types, service providers): serve from the
local cache on a hit, otherwise fetch and save. -/
def referenceQueryFn (now : Nat) (store : LocalStore) (key : String)
    (serverData : String) : String × LocalStore :=
  match getFromLocalCache now store key with
  | (some cached, store1) => (cached, store1)
  | (none, store1) => (serverData, saveToLocalCache now store1 key serverData)

/-- The `staleTime` of the paginated sales query (30 seconds in the
source: dados de vendas são mais críticos). -/
def salesStaleTime : Nat := 30000

/-- The effect of the paginated sales queryFn on the persistent local
store: none — the function fetches with no-cache headers and neither reads
nor writes localStorage. -/
def salesQueryFn (store : LocalStore) (serverPage : String) :
    String × LocalStore :=
  (serverPage, store)

/-! C8 embedding: the clear-sales action.  The SalesPage toolbar renders
the "Limpar Vendas" button for admin and also, in a separate branch, for
operacional; the backing endpoint is server code absent from src. -/

/-- Which roles the SalesPage toolbar shows the "Limpar Vendas" button to,
per the two render branches of the source. -/
def showClearSalesButton (role : String) : Bool :=
  role == "admin" || role == "operacional"

/-- Modelled from the spec: `DELETE /admin/clear-orders` (server code not
in src) irreversibly truncates the order collection and returns the count
of removed orders. -/
def clearAllOrders (orders : List Sale) : List Sale × Nat :=
  ([], orders.length)

/-! C9 embedding: the SalesPage filter/pagination state and the three
handlers that change the seller filter, the date range and the page
size. -/

structure SalesPageState where
  page : Nat
  limit : Nat
  selectedSellerId : String
  dateRange : Option (String × String)
  deriving DecidableEq, Repr

/-- `handleSellerFilterChange`: set the seller filter and go back to the
first page. -/
def handleSellerFilterChange (value : String) (st : SalesPageState) :
    SalesPageState :=
  { st with selectedSellerId := value, page := 1 }

/-- `handleDateRangeChange`: set the date range and go back to the first
page. -/
def handleDateRangeChange (range : Option (String × String))
    (st : SalesPageState) : SalesPageState :=
  { st with dateRange := range, page := 1 }

/-- The `onPageSizeChange` callback passed to PaginatedSalesTable: set the
new page size and go back to the first page. -/
def onPageSizeChange (newSize : Nat) (st : SalesPageState) : SalesPageState :=
  { st with limit := newSize, page := 1 }

/-! Theorems settling the claims. -/

/-- The form of a start-execution request with the partner-provider option
active and no provider selected. -/
def c1Form : ExecTypeForm :=
  { saleId := some 1, selectedServiceTypeId := some 5
    hasPrestadorParceiro := true, selectedServiceProviderIds := []
    saleServiceProviders := [] }

/-- C1 counterexample: on a pending sale, a request with a service type
selected, the partner-provider option active and zero providers selected
is rejected (an error is thrown), yet the sale's execution data has
already changed: the service-type update was posted before the provider
check ran, so the two updates are not one atomic unit. -/
theorem C1_counterexample :
    (updateExecutionTypeMutation c1Form true pendingSale).1.isSome = true ∧
    (updateExecutionTypeMutation c1Form true pendingSale).2.serviceTypeId
      ≠ pendingSale.serviceTypeId := by
  decide

/-- C1 amended: when no service type is selected the request is rejected
with an error naming the missing field before any update is sent; when the
partner-provider option is active with zero providers selected the request
is rejected with an error naming the missing field, but only after the
service-type update has already been applied to the order — the
service-type update and the provider update are not atomic. -/
theorem C1_amended (form : ExecTypeForm) (sale : Sale) (i : Nat)
    (h : form.saleId = some i) :
    (form.selectedServiceTypeId = none →
      updateExecutionTypeMutation form true sale =
        (some "É necessário selecionar um tipo de execução", sale)) ∧
    (∀ t, form.selectedServiceTypeId = some t →
      form.hasPrestadorParceiro = true →
      form.selectedServiceProviderIds = [] →
      updateExecutionTypeMutation form true sale =
        (some "É necessário selecionar pelo menos um prestador parceiro",
          { sale with serviceTypeId := some t })) := by
  constructor
  · intro h0
    simp [updateExecutionTypeMutation, h, h0]
  · intro t h1 h2 h3
    simp [updateExecutionTypeMutation, h, h1, h2, h3, postUpdateExecutionType]

/-- C1 witness: the amended theorem evaluated at the concrete
counterexample request. -/
theorem C1_amended_witness :
    updateExecutionTypeMutation c1Form true pendingSale =
      (some "É necessário selecionar pelo menos um prestador parceiro",
        { pendingSale with serviceTypeId := some 5 }) :=
  (C1_amended c1Form pendingSale 1 rfl).2 5 rfl rfl rfl

/-- C2: a mark-paid request succeeds exactly when the order is completed
and unpaid; applying mark-paid to the order it returns is rejected as
TransitionNotAllowed (never silently applied twice); and the SalesPage
mark-paid button is never shown for an order already paid. -/
theorem C2_mark_paid (sale : Sale) :
    ((∃ s, markPaid sale = Except.ok s) ↔
      sale.status = ExecStatus.completed ∧
        sale.financialStatus = FinStatus.unpaid) ∧
    (∀ s, markPaid sale = Except.ok s →
      markPaid s = Except.error TransitionError.TransitionNotAllowed) ∧
    (∀ role, sale.financialStatus = FinStatus.paid →
      showMarkPaidButton role sale = false) := by
  refine ⟨?_, ?_, ?_⟩
  · constructor
    · rintro ⟨s, hs⟩
      by_contra hcon
      simp [markPaid, hcon] at hs
    · intro hcond
      refine ⟨{ sale with financialStatus := FinStatus.paid }, ?_⟩
      simp only [markPaid, if_pos hcond]
  · intro s hs
    have hcond : sale.status = ExecStatus.completed ∧
        sale.financialStatus = FinStatus.unpaid := by
      by_contra hcon
      simp [markPaid, hcon] at hs
    simp only [markPaid, if_pos hcond, Except.ok.injEq] at hs
    subst hs
    simp [markPaid]
  · intro role hpaid
    have hbne : (FinStatus.paid != FinStatus.paid) = false := by decide
    simp [showMarkPaidButton, hpaid, hbne]

/-- C2 witness: a concrete completed, unpaid sale is marked paid once and
the second attempt is rejected. -/
theorem C2_mark_paid_witness :
    markPaid completedUnpaidSale = Except.ok completedPaidSale ∧
    markPaid completedPaidSale
      = Except.error TransitionError.TransitionNotAllowed :=
  ⟨rfl, (C2_mark_paid completedUnpaidSale).2.1 completedPaidSale rfl⟩

/-- C3 counterexample: for an actor with role vendedor and id 1, selecting
seller filter "2" makes the query function send `sellerId=2` — the
client-supplied filter wins over the actor scope — and with no filter the
client itself appends its own id as `sellerId=1`.  So the restriction is
applied by the client including an id in the request, not independently of
client-supplied parameters. -/
theorem C3_counterexample :
    salesSellerIdParam "vendedor" 1 "2" = some "2" ∧
    salesSellerIdParam "vendedor" 1 "2" ≠ some (toString 1) ∧
    salesSellerIdParam "vendedor" 1 "all" = some (toString 1) := by
  decide

/-- C3 amended: the seller scoping is implemented in the client query
function: for a vendedor with no explicit seller filter ("" or "all") the
client appends the actor's own id as the sellerId parameter, while for any
other role no sellerId parameter is added; an explicitly selected seller
filter overrides this scoping. -/
theorem C3_amended (userId : Nat) (sel : String)
    (h : sel = "" ∨ sel = "all") :
    salesSellerIdParam "vendedor" userId sel = some (toString userId) ∧
    (∀ role, role ≠ "vendedor" →
      salesSellerIdParam role userId sel = none) := by
  rcases h with h | h <;> subst h <;>
    exact ⟨by simp [salesSellerIdParam],
      fun role hr => by simp [salesSellerIdParam, hr]⟩

/-- C3 witness: the amended theorem at a concrete vendedor with the
default "all" filter. -/
theorem C3_amended_witness :
    salesSellerIdParam "vendedor" 7 "all" = some (toString 7) :=
  (C3_amended 7 "all" (Or.inr rfl)).1

/-- Any cache entry reached by a prefix-matching invalidation is marked
stale afterwards. -/
theorem stale_of_mem_invalidateQueries (k : List String)
    (cache : List CacheEntry) (e : CacheEntry)
    (hmem : e ∈ invalidateQueries k cache)
    (hpre : k.isPrefixOf e.key = true) : e.stale = true := by
  simp only [invalidateQueries, List.mem_map] at hmem
  obtain ⟨a, -, hfa⟩ := hmem
  by_cases hk : k.isPrefixOf a.key = true
  · rw [if_pos hk] at hfa
    rw [← hfa]
  · rw [if_neg hk] at hfa
    subst hfa
    exact absurd hpre hk

/-- C4: after a successful delete, resend, mark-paid or clear-all
mutation, and after a received sales_update push event, every cached entry
whose key starts with "/api/sales" — whatever the rest of its
filter/sort/page key — is stale, and reading a stale entry yields the
freshly fetched server value, never the prior cached value. -/
theorem C4_all_sales_pages_invalidated (cache : List CacheEntry)
    (e : CacheEntry)
    (hpre : List.isPrefixOf ["/api/sales"] e.key = true) :
    (e ∈ deleteMutationOnSuccess cache → e.stale = true) ∧
    (e ∈ resendSaleMutationOnSuccess cache → e.stale = true) ∧
    (e ∈ markAsPaidMutationOnSuccess cache → e.stale = true) ∧
    (e ∈ clearAllSalesMutationOnSuccess cache → e.stale = true) ∧
    (∀ ev, ev.type = WSEventType.sales_update →
      e ∈ salesUpdateEffect (some ev) cache → e.stale = true) ∧
    (e.stale = true → ∀ fetched, cacheRead e fetched = fetched) := by
  refine ⟨?_, ?_, ?_, ?_, ?_, ?_⟩
  · intro hmem
    exact stale_of_mem_invalidateQueries _ cache e hmem hpre
  · intro hmem
    exact stale_of_mem_invalidateQueries _ cache e hmem hpre
  · intro hmem
    exact stale_of_mem_invalidateQueries _ cache e hmem hpre
  · intro hmem
    exact stale_of_mem_invalidateQueries _ cache e hmem hpre
  · intro ev hev hmem
    simp only [salesUpdateEffect, if_pos hev] at hmem
    exact stale_of_mem_invalidateQueries _ cache e hmem hpre
  · intro hstale fetched
    simp [cacheRead, hstale]

/-- A concrete fresh order-page cache entry. -/
def freshSalesEntry : CacheEntry :=
  { key := ["/api/sales", "all", "1", "15"], value := "old-page", stale := false }

/-- C4 witness: the invalidation theorem applied to a one-entry cache
after a successful delete mutation. -/
theorem C4_witness :
    ({ freshSalesEntry with stale := true } : CacheEntry).stale = true :=
  (C4_all_sales_pages_invalidated [freshSalesEntry]
      { freshSalesEntry with stale := true } (by decide)).1
    (by
      have h : deleteMutationOnSuccess [freshSalesEntry]
          = [{ freshSalesEntry with stale := true }] := by decide
      rw [h]
      exact List.mem_singleton_self _)

/-- C5: after every successful transition the notifier broadcasts a single
sales_update event (the spec's "orders changed" event) whose payload is
only a timestamp — no order contents — and every registered connection
whose transport is open receives exactly one copy of the identical
serialized message; connections not open receive nothing. -/
theorem C5_notify_broadcast (f : Sale → Except TransitionError Sale)
    (sale sale1 : Sale) (now : Nat) (conns : List WSConn)
    (hok : f sale = Except.ok sale1) (c : WSConn) (hc : c ∈ conns) :
    (salesUpdateEvent now).type = WSEventType.sales_update ∧
    (salesUpdateEvent now).payload = some (WSPayload.timestamp now) ∧
    (c.readyState = ReadyState.OPEN →
      { c with sent := c.sent ++ [serializeWSEvent (salesUpdateEvent now)] }
        ∈ (applyTransitionAndNotify f sale now conns).2) ∧
    (c.readyState ≠ ReadyState.OPEN →
      c ∈ (applyTransitionAndNotify f sale now conns).2) := by
  refine ⟨rfl, rfl, ?_, ?_⟩
  · intro hopen
    simp only [applyTransitionAndNotify, hok, notifySalesUpdate,
      broadcastEvent]
    exact List.mem_map.mpr ⟨c, hc, by simp [hopen]⟩
  · intro hnot
    simp only [applyTransitionAndNotify, hok, notifySalesUpdate,
      broadcastEvent]
    exact List.mem_map.mpr ⟨c, hc, by simp [hnot]⟩

/-- A concrete open connection with an empty send log. -/
def openConn : WSConn := { id := 1, readyState := ReadyState.OPEN }

/-- C5 witness: a successful transition on a registry holding one open
connection delivers the serialized sales-update message to it. -/
theorem C5_notify_broadcast_witness :
    { openConn with
        sent := openConn.sent ++ [serializeWSEvent (salesUpdateEvent 7)] }
      ∈ (applyTransitionAndNotify Except.ok pendingSale 7 [openConn]).2 :=
  (C5_notify_broadcast Except.ok pendingSale pendingSale 7 [openConn] rfl
      openConn (by simp)).2.2.1 rfl

/-- Derived boolean equality on ReadyState agrees with propositional
equality. -/
theorem readyState_beq_iff (a b : ReadyState) : (a == b) = true ↔ a = b := by
  cases a <;> cases b <;> decide

/-- A connection that stays open, accepts writes, but never answers the
liveness probe. -/
def unresponsiveConn : WSConn :=
  { id := 1, readyState := ReadyState.OPEN, sendFails := false
    respondsToPing := false }

/-- C6 counterexample: a connection that fails to respond to the liveness
probe — but whose transport stays open and accepts the send — survives a
full probe cycle: the registry never examines probe responses, so the
connection is not pruned. -/
theorem C6_counterexample :
    unresponsiveConn.respondsToPing = false ∧
    (probeCycle 0 [unresponsiveConn]).map (fun c => c.id) = [1] := by
  decide

/-- C6 amended: the registry sends a liveness probe every 15 time-units
(pingIntervalMs) to each connection while it is open; a connection whose
transport reports closed is removed from the connection set during the
cycle, and a connection whose probe send throws is terminated; only open
connections survive a probe cycle.  Probe responses are never tracked, so
failing to respond does not by itself remove a connection. -/
theorem C6_amended (now : Nat) (c : WSConn) (conns : List WSConn) :
    pingIntervalMs = 15000 ∧
    (c.readyState = ReadyState.OPEN → c.sendFails = false →
      intervalTick now c =
        { c with sent := c.sent ++ [serializeWSEvent (pingEvent now)] }) ∧
    (c.readyState = ReadyState.OPEN → c.sendFails = true →
      (intervalTick now c).readyState = ReadyState.CLOSED) ∧
    (c.readyState ≠ ReadyState.OPEN → c ∉ probeCycle now conns) ∧
    (∀ d ∈ probeCycle now conns, d.readyState = ReadyState.OPEN) := by
  refine ⟨rfl, ?_, ?_, ?_, ?_⟩
  · intro h1 h2
    simp [intervalTick, h1, h2]
  · intro h1 h2
    simp [intervalTick, h1, h2]
  · intro h1 hmem
    simp only [probeCycle, List.mem_filter] at hmem
    exact h1 ((readyState_beq_iff _ _).mp hmem.2)
  · intro d hd
    simp only [probeCycle, List.mem_filter] at hd
    exact (readyState_beq_iff _ _).mp hd.2

/-- A concrete connection whose transport reports closed. -/
def closedConn : WSConn := { id := 2, readyState := ReadyState.CLOSED }

/-- C6 witness: the amended theorem at a closed connection, which a probe
cycle removes from the registry. -/
theorem C6_amended_witness :
    pingIntervalMs = 15000 ∧ closedConn ∉ probeCycle 0 [closedConn] :=
  ⟨(C6_amended 0 closedConn []).1,
    (C6_amended 0 closedConn [closedConn]).2.2.2.1 (by decide)⟩

/-- A concrete reference-data cache entry written at time 0. -/
def customersEntry : LocalCacheEntry :=
  { key := "customers", data := "cached-customers", timestamp := 0 }

/-- C7 counterexample: a persistent-cache entry exactly one hour old is
served from the cache and kept, because the source expires entries only
when `now - timestamp` is strictly greater than one hour; the claim's "an
entry at least 1 hour old is removed and the data refetched" fails at the
boundary. -/
theorem C7_counterexample :
    getFromLocalCache localStorageCacheTime [customersEntry] "customers"
      = (some "cached-customers", [customersEntry]) := by
  decide

/-- C7 amended: order pages use only the volatile tier with a 30
time-unit freshness window (salesStaleTime) and the sales query never
touches the persistent local cache; a reference-data entry at most 1 hour
old is served from the persistent cache, and an entry strictly older than
1 hour is removed and the data refetched from the server. -/
theorem C7_amended (now ts : Nat) (store : LocalStore)
    (key data serverData : String)
    (hfind : lookupCache store key
      = some { key := key, data := data, timestamp := ts }) :
    (now - ts ≤ localStorageCacheTime →
      getFromLocalCache now store key = (some data, store)) ∧
    (localStorageCacheTime < now - ts →
      getFromLocalCache now store key = (none, removeItem store key) ∧
      (referenceQueryFn now store key serverData).1 = serverData) ∧
    salesStaleTime = 30000 ∧
    (∀ st page, (salesQueryFn st page).2 = st) := by
  refine ⟨?_, ?_, rfl, fun st page => rfl⟩
  · intro hle
    simp only [getFromLocalCache, hfind]
    rw [if_neg (Nat.not_lt.mpr hle)]
  · intro hlt
    have hget : getFromLocalCache now store key
        = (none, removeItem store key) := by
      simp only [getFromLocalCache, hfind]
      rw [if_pos hlt]
    refine ⟨hget, ?_⟩
    simp only [referenceQueryFn, hget]

/-- C7 witness: the amended theorem at a one-entry store whose entry is
one time-unit past the freshness window; the entry is removed and the
reference query returns the server data. -/
theorem C7_amended_witness :
    getFromLocalCache (localStorageCacheTime + 1) [customersEntry]
        "customers"
      = (none, removeItem [customersEntry] "customers") :=
  ((C7_amended (localStorageCacheTime + 1) 0 [customersEntry] "customers"
      "cached-customers" "server-customers" (by decide)).2.1
    (by decide)).1

/-- C8 counterexample: the clear-sales action is offered to the
operacional role as well, so the irreversible bulk purge is not available
to admin actors only. -/
theorem C8_counterexample :
    showClearSalesButton "operacional" = true
      ∧ "operacional" ≠ "admin" := by
  decide

/-- C8 amended: the irreversible bulk purge of all orders is offered to
actors with the admin or operacional role (and to no other role), and on
success it returns the count of removed orders (all of them). -/
theorem C8_amended (role : String) (orders : List Sale) :
    (showClearSalesButton role = true ↔
      role = "admin" ∨ role = "operacional") ∧
    clearAllOrders orders = ([], orders.length) := by
  refine ⟨?_, rfl⟩
  simp [showClearSalesButton]

/-- C9: changing the seller filter, the date-range filter, or the page
size resets the current page to 1, for every prior state (hence every
prior page value), while recording the new filter value. -/
theorem C9_page_reset (st : SalesPageState) (value : String)
    (range : Option (String × String)) (newSize : Nat) :
    (handleSellerFilterChange value st).page = 1 ∧
    (handleDateRangeChange range st).page = 1 ∧
    (onPageSizeChange newSize st).page = 1 ∧
    (handleSellerFilterChange value st).selectedSellerId = value ∧
    (handleDateRangeChange range st).dateRange = range ∧
    (onPageSizeChange newSize st).limit = newSize :=
  ⟨rfl, rfl, rfl, rfl, rfl, rfl⟩

/-- C10: the message handler never touches the registry and never changes
the connection's ready state; a message that fails to parse is discarded
(connection and registry unchanged); a parsed non-ping message produces no
reply; only a parsed ping produces a reply, and that reply is the pong
event. -/
theorem C10_message_handler (now : Nat) (parsed : Option WSEvent)
    (ws : WSConn) (conns : List WSConn) :
    (onMessageServer now parsed ws conns).2 = conns ∧
    ((onMessageServer now parsed ws conns).1).readyState = ws.readyState ∧
    (parsed = none → onMessageServer now parsed ws conns = (ws, conns)) ∧
    (∀ ev, parsed = some ev → ev.type ≠ WSEventType.ping →
      onMessageServer now parsed ws conns = (ws, conns)) ∧
    (∀ ev, parsed = some ev → ev.type = WSEventType.ping →
      onMessageServer now parsed ws conns =
        ({ ws with sent := ws.sent ++ [serializeWSEvent (pongEvent now)] },
          conns) ∧
      (pongEvent now).type = WSEventType.pong) := by
  refine ⟨?_, ?_, ?_, ?_, ?_⟩
  · rcases parsed with _ | ev
    · rfl
    · by_cases h : ev.type = WSEventType.ping <;>
        simp [onMessageServer, h]
  · rcases parsed with _ | ev
    · rfl
    · by_cases h : ev.type = WSEventType.ping <;>
        simp [onMessageServer, h]
  · intro h
    subst h
    rfl
  · intro ev h hne
    subst h
    simp [onMessageServer, hne]
  · intro ev h hping
    subst h
    exact ⟨by simp [onMessageServer, hping], rfl⟩

/-- C10 witness: the handler at a concrete parsed ping on a registry with
one open connection replies with the serialized pong and leaves the
registry alone. -/
theorem C10_message_handler_witness :
    onMessageServer 3 (some { type := WSEventType.ping }) openConn
        [openConn]
      = ({ openConn with
            sent := openConn.sent ++ [serializeWSEvent (pongEvent 3)] },
          [openConn]) :=
  ((C10_message_handler 3 (some { type := WSEventType.ping }) openConn
      [openConn]).2.2.2.2 { type := WSEventType.ping } rfl rfl).1

end NvsAntt
